import Mathlib

/-!
Verification of the OxygenPlatform order/cylinder lifecycle engine.

This file gives a shallow embedding of the core modules of the repository:

* `app/modules/orders/utils.py` — haversine distance and vendor ranking,
* `app/modules/cylinders/service.py` — the Cylinder Registry,
* `app/modules/orders/service.py` — the Order Engine,
* `app/modules/orders/services/delivery.py` — the Delivery Tracker,
* `app/core/cache.py` — the read-through cache keys used by `get`.

The relational store is modelled as explicit lists of rows (`DB`), SQLAlchemy
sessions as pure state passing, raised `HTTPException`s as `Except` errors,
Python `datetime` values as natural numbers, and Python `float` coordinates as
real numbers.  Geodesic code is therefore `noncomputable`; all other
operations are executable definitions.
-/

/-! ### Locations (pydantic `Location` schema) -/

/-- `Location` from `app/modules/cylinders/schemas.py`: all four fields
optional. Coordinates are Python floats, modelled as reals. -/
structure Location where
  address : Option String := none
  latitude : Option ℝ := none
  longitude : Option ℝ := none
  notes : Option String := none

/-! ### Geo-Matcher (`app/modules/orders/utils.py`) -/

/-- Python's `math.atan2`, by the standard quadrant case split. -/
noncomputable def atan2 (y x : ℝ) : ℝ :=
  if 0 < x then Real.arctan (y / x)
  else if x < 0 ∧ 0 ≤ y then Real.arctan (y / x) + Real.pi
  else if x < 0 ∧ y < 0 then Real.arctan (y / x) - Real.pi
  else if x = 0 ∧ 0 < y then Real.pi / 2
  else if x = 0 ∧ y < 0 then -(Real.pi / 2)
  else 0

/-- Python's `math.radians`: degrees to radians. -/
noncomputable def radiansOf (x : ℝ) : ℝ := x * Real.pi / 180

/-- The intermediate `a` of the haversine formula:
`sin(dlat/2)**2 + cos(lat1) * cos(lat2) * sin(dlon/2)**2` on the
radian-converted coordinates. -/
noncomputable def havA (lat1 lon1 lat2 lon2 : ℝ) : ℝ :=
  Real.sin ((radiansOf lat2 - radiansOf lat1) / 2) ^ 2 +
    Real.cos (radiansOf lat1) * Real.cos (radiansOf lat2) *
      Real.sin ((radiansOf lon2 - radiansOf lon1) / 2) ^ 2

/-- The haversine kernel of `calculate_distance` (the code path taken once
all four coordinates passed the `all([...])` truthiness test):
`c = 2 * atan2(sqrt(a), sqrt(1-a))`, `distance = R * c` with `R = 6371`. -/
noncomputable def haversineKm (lat1 lon1 lat2 lon2 : ℝ) : ℝ :=
  6371 * (2 * atan2 (Real.sqrt (havA lat1 lon1 lat2 lon2))
    (Real.sqrt (1 - havA lat1 lon1 lat2 lon2)))

/-- `calculate_distance` from `app/modules/orders/utils.py`.  The guard is
`if not all([loc1.latitude, loc1.longitude, loc2.latitude, loc2.longitude])`:
Python truthiness makes both `None` and `0.0` count as a missing coordinate,
in which case the function returns `float('inf')`, modelled as `(⊤ : EReal)`. -/
noncomputable def calculate_distance (loc1 loc2 : Location) : EReal :=
  match loc1.latitude, loc1.longitude, loc2.latitude, loc2.longitude with
  | some lat1, some lon1, some lat2, some lon2 =>
    if lat1 = 0 ∨ lon1 = 0 ∨ lat2 = 0 ∨ lon2 = 0 then ⊤
    else ((haversineKm lat1 lon1 lat2 lon2 : ℝ) : EReal)
  | _, _, _, _ => ⊤

/-- `find_nearby_vendors` from `app/modules/orders/utils.py`: keep the
candidates whose distance is at most `max_distance`, in input order, then
Python's stable `sorted(..., key=lambda x: x[1])`, modelled by the stable
`List.mergeSort`. -/
noncomputable def find_nearby_vendors (target_location : Location)
    (vendor_locations : List (Nat × Location)) (max_distance : EReal) :
    List (Nat × EReal) :=
  (vendor_locations.filterMap (fun p =>
      let d := calculate_distance target_location p.2
      if d ≤ max_distance then some (p.1, d) else none)).mergeSort
    (fun x y => decide (x.2 ≤ y.2))

/-! ### Enums (`app/modules/cylinders/enums.py`, `app/modules/orders/enums.py`) -/

/-- `CylinderStatus`. -/
inductive CylinderStatus where
  | filled | in_transit | empty | returned
deriving DecidableEq, Repr

/-- `CylinderEventType`. -/
inductive CylinderEventType where
  | created | status_changed | assigned | unassigned | location_updated | deleted
deriving DecidableEq, Repr

/-- `OrderStatus`: exactly the five members declared in
`app/modules/orders/enums.py`; there is no `OUT_FOR_DELIVERY` member. -/
inductive OrderStatus where
  | pending | accepted | in_transit | delivered | cancelled
deriving DecidableEq, Repr

/-- `OrderUrgency`. -/
inductive OrderUrgency where
  | low | medium | high | critical
deriving DecidableEq, Repr

/-- `OrderEventType`: exactly the seven members declared in
`app/modules/orders/enums.py`; there is no `DELIVERY_UPDATE` member. -/
inductive OrderEventType where
  | created | status_changed | vendor_assigned | cylinders_assigned
  | cylinders_updated | cancelled | completed
deriving DecidableEq, Repr

/-- Python attribute lookup `OrderStatus.<NAME>` on the enum class: `some`
for the five declared members, `none` (an `AttributeError`) otherwise. -/
def OrderStatus.pyAttr : String → Option OrderStatus
  | "PENDING" => some .pending
  | "ACCEPTED" => some .accepted
  | "IN_TRANSIT" => some .in_transit
  | "DELIVERED" => some .delivered
  | "CANCELLED" => some .cancelled
  | _ => none

/-- The string value of an `OrderStatus` member (it is a `str` enum). -/
def OrderStatus.val : OrderStatus → String
  | .pending => "pending"
  | .accepted => "accepted"
  | .in_transit => "in_transit"
  | .delivered => "delivered"
  | .cancelled => "cancelled"

/-- Parse a string value back into an `OrderStatus` member. -/
def OrderStatus.ofVal : String → Option OrderStatus
  | "pending" => some .pending
  | "accepted" => some .accepted
  | "in_transit" => some .in_transit
  | "delivered" => some .delivered
  | "cancelled" => some .cancelled
  | _ => none

/-- Python attribute lookup `OrderEventType.<NAME>` on the enum class. -/
def OrderEventType.pyAttr : String → Option OrderEventType
  | "CREATED" => some .created
  | "STATUS_CHANGED" => some .status_changed
  | "VENDOR_ASSIGNED" => some .vendor_assigned
  | "CYLINDERS_ASSIGNED" => some .cylinders_assigned
  | "CYLINDERS_UPDATED" => some .cylinders_updated
  | "CANCELLED" => some .cancelled
  | "COMPLETED" => some .completed
  | _ => none

/-! ### Rows (`app/modules/cylinders/models.py`, `app/modules/orders/models.py`) -/

/-- A `cylinders` row. -/
structure Cylinder where
  id : Nat
  serial_number : String
  status : CylinderStatus
  vendor_id : Nat
  location : Option Location := none
  is_assigned : Bool := false
  current_order_id : Option Nat := none

/-- A `cylinder_logs` row. -/
structure CylinderLog where
  cylinder_id : Nat
  event_type : CylinderEventType
  old_status : Option CylinderStatus := none
  new_status : Option CylinderStatus := none
  order_id : Option Nat := none
  location : Option Location := none
  notes : Option String := none
  created_by : Nat

/-- An `orders` row, together with its `order_cylinders` association entries
(the many-to-many `Order.cylinders` collection, stored as cylinder ids). -/
structure Order where
  id : Nat
  hospital_id : Nat
  vendor_id : Option Nat := none
  status : OrderStatus := .pending
  urgency : OrderUrgency
  quantity : Int
  delivery_location : Option Location := none
  special_instructions : Option String := none
  cylinders_sent : Int := 0
  empty_cylinders_returned : Int := 0
  expected_delivery : Option Nat := none
  delivered_at : Option Nat := none
  cylinders : List Nat := []

/-- Driver information dict carried in delivery log details. -/
structure DriverInfo where
  name : Option String := none
  phone : Option String := none

/-- `DeliveryUpdate` from `app/modules/orders/schemas/delivery.py`; its
`status` field is a plain string. -/
structure DeliveryUpdate where
  eta : Option Nat := none
  current_location : Option String := none
  status : String
  notes : Option String := none

/-- The JSON `details` payloads the Order Engine writes. -/
inductive OrderLogDetails where
  | acceptance (assigned_cylinders : List Nat) (expected_delivery : Nat)
  | statusUpdate (cylinders_sent : Int) (empty_cylinders_returned : Int)
      (notes : Option String)
  | delivery (location : Option String) (status_update : DeliveryUpdate)
      (driver : Option DriverInfo)

/-- An `order_logs` row. -/
structure OrderLog where
  order_id : Nat
  event_type : OrderEventType
  old_status : Option OrderStatus := none
  new_status : Option OrderStatus := none
  details : Option OrderLogDetails := none
  notes : Option String := none
  created_by : Nat

/-- The transactional relational store: one list of rows per table. -/
structure DB where
  cylinders : List Cylinder := []
  orders : List Order := []
  cylinder_logs : List CylinderLog := []
  order_logs : List OrderLog := []

/-- `select(Cylinder).where(Cylinder.id == cylinder_id)` with
`scalar_one_or_none` (ids are the primary key). -/
def dbFindCylinder (db : DB) (cylinder_id : Nat) : Option Cylinder :=
  db.cylinders.find? (fun c => decide (c.id = cylinder_id))

/-- `select(Order).where(Order.id == order_id)` with `scalar_one_or_none`. -/
def dbFindOrder (db : DB) (order_id : Nat) : Option Order :=
  db.orders.find? (fun o => decide (o.id = order_id))

/-- Raised `HTTPException`s (status code and detail), plus the
`AttributeError` a reference to a missing enum member raises. -/
inductive Err where
  | http (code : Nat) (detail : String)
  | attributeError
deriving DecidableEq

/-! ### Read-through cache (`app/core/cache.py`) -/

/-- `RedisCache._generate_key`: join the parts with a colon. -/
def generateKey (key_parts : List String) : String :=
  String.intercalate (":") key_parts

/-- The Redis key/value store, one entry per key. -/
def CacheMap (α : Type) : Type := List (String × α)

/-- `RedisCache.get`. -/
def cacheGet {α : Type} (cache : CacheMap α) (key_parts : List String) :
    Option α :=
  List.lookup (generateKey key_parts) cache

/-- `RedisCache.set` (overwrite the key). -/
def cacheSet {α : Type} (cache : CacheMap α) (key_parts : List String)
    (value : α) : CacheMap α :=
  let key := generateKey key_parts
  (key, value) :: cache.filter (fun e => decide (¬ e.1 = key))

/-- The dict `CylinderService._cache_cylinder` stores. -/
structure CachedCylinder where
  id : Nat
  serial_number : String
  status : CylinderStatus
  vendor_id : Nat
  location : Option Location
  is_assigned : Bool
  current_order_id : Option Nat

/-- Build the cached dict from a cylinder row. -/
def cachedOfCylinder (c : Cylinder) : CachedCylinder :=
  ⟨c.id, c.serial_number, c.status, c.vendor_id, c.location,
    c.is_assigned, c.current_order_id⟩

/-- The dict `OrderService._cache_order` stores. -/
structure CachedOrder where
  id : Nat
  hospital_id : Nat
  vendor_id : Option Nat
  status : OrderStatus
  urgency : OrderUrgency
  quantity : Int
  delivery_location : Option Location
  cylinders_sent : Int
  empty_cylinders_returned : Int

/-- Build the cached dict from an order row. -/
def cachedOfOrder (o : Order) : CachedOrder :=
  ⟨o.id, o.hospital_id, o.vendor_id, o.status, o.urgency, o.quantity,
    o.delivery_location, o.cylinders_sent, o.empty_cylinders_returned⟩

/-! ### Cylinder Registry (`app/modules/cylinders/service.py`) -/

/-- `CylinderCreate` schema. -/
structure CylinderCreate where
  serial_number : String
  location : Option Location := none
  status : CylinderStatus := .filled

/-- `CylinderUpdate` schema.  pydantic distinguishes unset fields
(`exclude_unset=True`) from explicitly passed ones: the outer `Option` is
set-ness; for `current_order_id` the inner `Option` is the passed value,
which may itself be `null`. -/
structure CylinderUpdate where
  status : Option CylinderStatus := none
  location : Option Location := none
  is_assigned : Option Bool := none
  current_order_id : Option (Option Nat) := none

namespace CylinderService

/-- `CylinderService.get`: cache-first, but on a hit the row is re-read from
the store and that row is returned; on a miss the row is read and cached.
Returns the row and the new cache. -/
def get (cache : CacheMap CachedCylinder) (db : DB) (cylinder_id : Nat) :
    Option Cylinder × CacheMap CachedCylinder :=
  match cacheGet cache [("cylinder"), toString cylinder_id] with
  | some _ => (dbFindCylinder db cylinder_id, cache)
  | none =>
    match dbFindCylinder db cylinder_id with
    | some cylinder =>
      (some cylinder,
        cacheSet cache [("cylinder"), toString cylinder_id]
          (cachedOfCylinder cylinder))
    | none => (none, cache)

/-- `CylinderService.create`: duplicate-serial check, insert the row with a
fresh id `new_id` (autoincrement), append a `created` log. -/
def create (db : DB) (cylinder_in : CylinderCreate) (vendor_id : Nat)
    (new_id : Nat) : Except Err (DB × Cylinder) :=
  match db.cylinders.find?
      (fun c => decide (c.serial_number = cylinder_in.serial_number)) with
  | some _ => .error (.http 400 ("Serial number already registered"))
  | none =>
    let cylinder : Cylinder :=
      { id := new_id, serial_number := cylinder_in.serial_number,
        status := cylinder_in.status, vendor_id := vendor_id,
        location := cylinder_in.location, is_assigned := false,
        current_order_id := none }
    let log : CylinderLog :=
      { cylinder_id := new_id, event_type := .created,
        new_status := some cylinder_in.status,
        location := cylinder_in.location, created_by := vendor_id,
        notes := some ("Cylinder created") }
    let db' := { db with
                 cylinders := db.cylinders ++ [cylinder],
                 cylinder_logs := db.cylinder_logs ++ [log] }
    Except.ok (db', cylinder)

/-- The row after `setattr` of every set field of a `CylinderUpdate`. -/
def applyUpdate (c : Cylinder) (u : CylinderUpdate) : Cylinder :=
  { c with
    status := u.status.getD c.status,
    location := match u.location with | some l => some l | none => c.location,
    is_assigned := u.is_assigned.getD c.is_assigned,
    current_order_id := u.current_order_id.getD c.current_order_id }

/-- `CylinderService.update`: 404 when the id does not resolve; apply the set
fields; append a `status_changed` log iff a status was passed and it differs
from the old one (the log's `order_id` reads `current_order_id` after the
field assignments). -/
def update (db : DB) (cylinder_id : Nat) (cylinder_in : CylinderUpdate)
    (user_id : Nat) : Except Err (DB × Cylinder) :=
  match dbFindCylinder db cylinder_id with
  | none => .error (.http 404 ("Cylinder not found"))
  | some cylinder =>
    let old_status := cylinder.status
    let cylinder' := applyUpdate cylinder cylinder_in
    let logs :=
      match cylinder_in.status with
      | some s =>
        if s ≠ old_status then
          [{ cylinder_id := cylinder.id, event_type := .status_changed,
             old_status := some old_status, new_status := some s,
             location := cylinder_in.location, created_by := user_id,
             order_id := cylinder'.current_order_id : CylinderLog }]
        else []
      | none => []
    let db' := { db with
                 cylinders := db.cylinders.map
                   (fun c => if c.id = cylinder_id then cylinder' else c),
                 cylinder_logs := db.cylinder_logs ++ logs }
    Except.ok (db', cylinder')

/-- The row mutation of one `update_status_bulk` iteration: set the status,
and overwrite the location when one was passed (Python `if location:`). -/
def bulkApplied (new_status : CylinderStatus) (location : Option Location)
    (cylinder : Cylinder) : Cylinder :=
  { cylinder with
    status := new_status,
    location := match location with
      | some l => some l
      | none => cylinder.location }

/-- The log row of one `update_status_bulk` iteration. -/
def bulkLog (new_status : CylinderStatus) (location : Option Location)
    (notes : Option String) (user_id : Nat) (order_id : Option Nat)
    (cylinder : Cylinder) : CylinderLog :=
  { cylinder_id := cylinder.id, event_type := .status_changed,
    old_status := some cylinder.status, new_status := some new_status,
    location := location, notes := notes, created_by := user_id,
    order_id := order_id }

/-- One iteration of the `update_status_bulk` loop: skip an id that does not
resolve; otherwise set the status (and the location when one was passed),
append a `status_changed` log unconditionally, and collect the row. -/
def bulkStep (new_status : CylinderStatus) (location : Option Location)
    (notes : Option String) (user_id : Nat) (order_id : Option Nat)
    (acc : DB × List Cylinder) (cyl_id : Nat) : DB × List Cylinder :=
  match dbFindCylinder acc.1 cyl_id with
  | none => acc
  | some cylinder =>
    let cylinder' := bulkApplied new_status location cylinder
    let db' := { acc.1 with
                 cylinders := acc.1.cylinders.map
                   (fun c => if c.id = cyl_id then cylinder' else c),
                 cylinder_logs := acc.1.cylinder_logs ++
                   [bulkLog new_status location notes user_id order_id cylinder] }
    (db', acc.2 ++ [cylinder'])

/-- `CylinderService.update_status_bulk`: the per-id loop over one session;
never raises, returns the updated rows in id-list order. -/
def update_status_bulk (db : DB) (cylinder_ids : List Nat)
    (new_status : CylinderStatus) (location : Option Location)
    (notes : Option String) (user_id : Nat) (order_id : Option Nat) :
    DB × List Cylinder :=
  cylinder_ids.foldl (bulkStep new_status location notes user_id order_id)
    (db, [])

/-- `CylinderService.delete`: append a `deleted` log capturing the prior
status, remove the row, return `true`; return `false` when the id does not
resolve.  The `order_cylinders` association rows are not touched. -/
def delete (db : DB) (cylinder_id : Nat) (user_id : Nat) : DB × Bool :=
  match dbFindCylinder db cylinder_id with
  | none => (db, false)
  | some cylinder =>
    let log : CylinderLog :=
      { cylinder_id := cylinder.id, event_type := .deleted,
        old_status := some cylinder.status, created_by := user_id,
        notes := some ("Cylinder deleted") }
    let db' := { db with
                 cylinders := db.cylinders.filter
                   (fun c => decide (¬ c.id = cylinder_id)),
                 cylinder_logs := db.cylinder_logs ++ [log] }
    (db', true)

end CylinderService

/-! ### Order Engine (`app/modules/orders/service.py`) -/

/-- `OrderCreate` schema. -/
structure OrderCreate where
  quantity : Int
  urgency : OrderUrgency
  delivery_location : Option Location := none
  special_instructions : Option String := none

/-- `OrderDeliveryUpdate` schema (`app/modules/orders/schemas.py`). -/
structure OrderDeliveryUpdate where
  status : OrderStatus
  cylinders_sent : Int
  empty_cylinders_returned : Int
  delivered_at : Option Nat := none
  notes : Option String := none

/-- The row predicate of the `accept_order` availability query:
`Cylinder.id.in_(ids) ∧ vendor ∧ FILLED ∧ not assigned`. -/
def availableFor (assigned_cylinder_ids : List Nat) (vendor_id : Nat)
    (c : Cylinder) : Prop :=
  c.id ∈ assigned_cylinder_ids ∧ c.vendor_id = vendor_id ∧
    c.status = CylinderStatus.filled ∧ c.is_assigned = false

instance (ids : List Nat) (v : Nat) : DecidablePred (availableFor ids v) :=
  fun c => by unfold availableFor; infer_instance

namespace OrderService

/-- `OrderService.get`: cache-first, but on a hit the row is re-read from the
store and that row is returned; on a miss the row is read and cached. -/
def get (cache : CacheMap CachedOrder) (db : DB) (order_id : Nat) :
    Option Order × CacheMap CachedOrder :=
  match cacheGet cache [("order"), toString order_id] with
  | some _ => (dbFindOrder db order_id, cache)
  | none =>
    match dbFindOrder db order_id with
    | some order =>
      (some order,
        cacheSet cache [("order"), toString order_id] (cachedOfOrder order))
    | none => (none, cache)

/-- `OrderService.create`: insert a `pending` order with a fresh id
`new_id`, no vendor, empty assignment set, and append a `created` log. -/
def create (db : DB) (order_in : OrderCreate) (hospital_id : Nat)
    (new_id : Nat) : DB × Order :=
  let order : Order :=
    { id := new_id, hospital_id := hospital_id,
      urgency := order_in.urgency, quantity := order_in.quantity,
      delivery_location := order_in.delivery_location,
      special_instructions := order_in.special_instructions }
  let log : OrderLog :=
    { order_id := new_id, event_type := .created,
      new_status := some order.status, created_by := hospital_id,
      notes := some ("Order created") }
  let db' := { db with
               orders := db.orders ++ [order],
               order_logs := db.order_logs ++ [log] }
  (db', order)

/-- `OrderService.accept_order`: 404 when the order does not resolve, 400
when it is not `pending`; the availability query must return as many rows as
there are requested ids, otherwise 400; on success the order row gains the
vendor, `accepted` status and the ETA, every matched cylinder is assigned and
linked, matched ids join the association set, and one `vendor_assigned` log
is appended. -/
def accept_order (db : DB) (order_id : Nat) (vendor_id : Nat)
    (expected_delivery : Nat) (assigned_cylinder_ids : List Nat) :
    Except Err (DB × Order) :=
  match dbFindOrder db order_id with
  | none => .error (.http 404 ("Order not found"))
  | some order =>
    if order.status ≠ OrderStatus.pending then
      .error (.http 400 ("Order cannot be accepted"))
    else
      let cylinders := db.cylinders.filter
        (fun c => decide (availableFor assigned_cylinder_ids vendor_id c))
      if cylinders.length ≠ assigned_cylinder_ids.length then
        .error (.http 400 ("Some cylinders are not available"))
      else
        let order' := { order with
                        vendor_id := some vendor_id,
                        status := OrderStatus.accepted,
                        expected_delivery := some expected_delivery,
                        cylinders := order.cylinders ++ cylinders.map (·.id) }
        let log : OrderLog :=
          { order_id := order.id, event_type := .vendor_assigned,
            old_status := some OrderStatus.pending,
            new_status := some OrderStatus.accepted,
            created_by := vendor_id,
            details := some (.acceptance assigned_cylinder_ids expected_delivery) }
        let db' := { db with
                     orders := db.orders.map
                       (fun o => if o.id = order_id then order' else o),
                     cylinders := db.cylinders.map
                       (fun c =>
                         if availableFor assigned_cylinder_ids vendor_id c then
                           { c with is_assigned := true,
                                    current_order_id := some order_id }
                         else c),
                     order_logs := db.order_logs ++ [log] }
        Except.ok (db', order')

/-- `OrderService.update_delivery_status`: 404 when the order does not
resolve; otherwise unconditionally overwrite status and both counters, set
`delivered_at` when supplied, and append a `status_changed` log. No guard on
the current status. -/
def update_delivery_status (db : DB) (order_id : Nat)
    (update_data : OrderDeliveryUpdate) (user_id : Nat) :
    Except Err (DB × Order) :=
  match dbFindOrder db order_id with
  | none => .error (.http 404 ("Order not found"))
  | some order =>
    let old_status := order.status
    let order' := { order with
                    status := update_data.status,
                    cylinders_sent := update_data.cylinders_sent,
                    empty_cylinders_returned := update_data.empty_cylinders_returned,
                    delivered_at := match update_data.delivered_at with
                      | some t => some t
                      | none => order.delivered_at }
    let log : OrderLog :=
      { order_id := order.id, event_type := .status_changed,
        old_status := some old_status, new_status := some update_data.status,
        created_by := user_id,
        details := some (.statusUpdate update_data.cylinders_sent
          update_data.empty_cylinders_returned update_data.notes) }
    let db' := { db with
                 orders := db.orders.map
                   (fun o => if o.id = order_id then order' else o),
                 order_logs := db.order_logs ++ [log] }
    Except.ok (db', order')

/-- `OrderService.cancel_order`: 404 when the order does not resolve, 400
unless the status is `pending` or `accepted`; on success the order becomes
`cancelled`, every cylinder in the association set is unassigned and
unlinked (the set itself is not emptied), and one `cancelled` log whose
notes are the reason is appended. -/
def cancel_order (db : DB) (order_id : Nat) (user_id : Nat) (reason : String) :
    Except Err (DB × Order) :=
  match dbFindOrder db order_id with
  | none => .error (.http 404 ("Order not found"))
  | some order =>
    if order.status ≠ OrderStatus.pending ∧
        order.status ≠ OrderStatus.accepted then
      .error (.http 400 ("Order cannot be cancelled"))
    else
      let old_status := order.status
      let order' := { order with status := OrderStatus.cancelled }
      let log : OrderLog :=
        { order_id := order.id, event_type := .cancelled,
          old_status := some old_status,
          new_status := some OrderStatus.cancelled,
          created_by := user_id, notes := some reason }
      let db' := { db with
                   orders := db.orders.map
                     (fun o => if o.id = order_id then order' else o),
                   cylinders := db.cylinders.map
                     (fun c =>
                       if c.id ∈ order.cylinders then
                         { c with is_assigned := false,
                                  current_order_id := none }
                       else c),
                   order_logs := db.order_logs ++ [log] }
      Except.ok (db', order')

end OrderService

/-! ### Delivery Tracker (`app/modules/orders/services/delivery.py`) -/

namespace DeliveryTrackingService

/-- `DeliveryTrackingService.update_delivery_status`: 404 when the order does
not resolve.  The guard list
`[OrderStatus.ACCEPTED, OrderStatus.IN_TRANSIT, OrderStatus.OUT_FOR_DELIVERY]`
is evaluated next: each member is an attribute lookup on the enum class, and
a missing member raises `AttributeError`.  When all lookups succeed the guard
rejects other statuses with a 400, the order's status is overwritten when the
update carries a different value (the raw string is coerced through the str
enum), the ETA is overwritten when supplied, and one log row whose
`event_type` is the looked-up `OrderEventType.DELIVERY_UPDATE` is appended,
bundling the location, the whole update and the driver info into `details`. -/
def update_delivery_status (db : DB) (order_id : Nat)
    (update : DeliveryUpdate) (user_id : Nat)
    (driver_info : Option DriverInfo) : Except Err (DB × Unit) :=
  match dbFindOrder db order_id with
  | none => .error (.http 404 ("Order not found"))
  | some order =>
    match OrderStatus.pyAttr ("ACCEPTED"), OrderStatus.pyAttr ("IN_TRANSIT"),
        OrderStatus.pyAttr ("OUT_FOR_DELIVERY") with
    | some s1, some s2, some s3 =>
      if order.status ≠ s1 ∧ order.status ≠ s2 ∧ order.status ≠ s3 then
        .error (.http 400 ("Order is not in delivery phase"))
      else
        let order' := { order with
                        status :=
                          if update.status ≠ order.status.val then
                            (OrderStatus.ofVal update.status).getD order.status
                          else order.status,
                        expected_delivery := match update.eta with
                          | some t => some t
                          | none => order.expected_delivery }
        match OrderEventType.pyAttr ("DELIVERY_UPDATE") with
        | some ev =>
          let log : OrderLog :=
            { order_id := order_id, event_type := ev,
              created_by := user_id,
              details := some (.delivery update.current_location update
                driver_info) }
          let db' := { db with
                       orders := db.orders.map
                         (fun o => if o.id = order_id then order' else o),
                       order_logs := db.order_logs ++ [log] }
          Except.ok (db', ())
        | none => .error Err.attributeError
    | _, _, _ => .error Err.attributeError

end DeliveryTrackingService

/-! ### Spec-side definitions for the refinement claim -/

/-- Modelled from the spec claim's words: the direct store lookup of a
cylinder id, against which the cached `get` is compared. -/
def specCylinderGet (db : DB) (cylinder_id : Nat) : Option Cylinder :=
  dbFindCylinder db cylinder_id

/-- Modelled from the spec claim's words: the direct store lookup of an
order id, against which the cached `get` is compared. -/
def specOrderGet (db : DB) (order_id : Nat) : Option Order :=
  dbFindOrder db order_id

/-! ### Invariants -/

/-- The §3 invariant: a cylinder's `is_assigned` flag is set exactly when its
`current_order_id` link is set. -/
def assignFlagInv (db : DB) : Prop :=
  ∀ c ∈ db.cylinders, c.is_assigned = true ↔ c.current_order_id ≠ none

instance (db : DB) : Decidable (assignFlagInv db) := by
  unfold assignFlagInv; infer_instance

/-- A coordinate value that Python's `all([...])` counts as present:
non-`None` and nonzero. -/
def truthyCoord (v : Option ℝ) : Prop := ∃ x, v = some x ∧ x ≠ 0

/-! ### Concrete fixtures used by witnesses and counterexamples -/

/-- A filled, unassigned cylinder with id 1 owned by vendor 7. -/
def cylFilled : Cylinder :=
  { id := 1, serial_number := ("SN1"), status := .filled, vendor_id := 7 }

/-- A second filled, unassigned cylinder with id 2 owned by vendor 7. -/
def cylFilled2 : Cylinder :=
  { id := 2, serial_number := ("SN2"), status := .filled, vendor_id := 7 }

/-- A cylinder assigned and linked to order 1. -/
def cylLinked : Cylinder :=
  { id := 1, serial_number := ("SN1"), status := .filled, vendor_id := 7,
    is_assigned := true, current_order_id := some 1 }

/-- A pending order with id 1 and an empty assignment set. -/
def orderPending : Order :=
  { id := 1, hospital_id := 2, status := .pending, urgency := .medium,
    quantity := 1 }

/-- An accepted order with id 1 and an empty assignment set. -/
def orderAccepted : Order :=
  { id := 1, hospital_id := 2, status := .accepted, urgency := .medium,
    quantity := 1 }

/-- An accepted order with id 1 whose assignment set holds cylinder 1. -/
def orderAcceptedWith1 : Order :=
  { id := 1, hospital_id := 2, status := .accepted, urgency := .medium,
    quantity := 1, cylinders := [1] }

/-- Store with one filled cylinder and one pending order. -/
def dbPending : DB := { cylinders := [cylFilled], orders := [orderPending] }

/-- Store with one filled cylinder and one accepted order. -/
def dbAccepted : DB := { cylinders := [cylFilled], orders := [orderAccepted] }

/-- Store with a single filled cylinder and no orders. -/
def dbOneCyl : DB := { cylinders := [cylFilled] }

/-- Store with cylinders 1 and 2, both filled. -/
def dbTwoCyl : DB := { cylinders := [cylFilled, cylFilled2] }

/-- Store where cylinder 1 is linked to order 1 but order 1's association
set is empty (the two assignment representations disagree). -/
def dbDisagree : DB :=
  { cylinders := [cylLinked],
    orders := [{ id := 1, hospital_id := 2, status := .pending,
                 urgency := .medium, quantity := 1 }] }

/-- Store where order 1 is accepted and its association set and cylinder 1's
link agree. -/
def dbAgree : DB := { cylinders := [cylLinked], orders := [orderAcceptedWith1] }

/-- A payload that sets only `is_assigned` to `True`. -/
def updAssignOnly : CylinderUpdate := { is_assigned := some true }

/-- A delivery update carrying only a status string. -/
def deliveryUpd : DeliveryUpdate := { status := ("in_transit") }

/-- A location with both coordinates present and nonzero. -/
def locFull : Location := { latitude := some 1, longitude := some 1 }

/-- A location with a latitude but no longitude. -/
def locHalf : Location := { latitude := some 1 }

/-- A location with a zero latitude (falsy in Python). -/
def locZeroLat : Location := { latitude := some 0, longitude := some 1 }

/-! ### Geo lemmas -/

lemma atan2_zero_one : atan2 0 1 = 0 := by
  unfold atan2
  rw [if_pos one_pos]
  simp [Real.arctan_zero]

lemma havA_self (lat lon : ℝ) : havA lat lon lat lon = 0 := by
  unfold havA
  simp

lemma havA_symm (lat1 lon1 lat2 lon2 : ℝ) :
    havA lat1 lon1 lat2 lon2 = havA lat2 lon2 lat1 lon1 := by
  unfold havA
  have h : ∀ x y : ℝ, Real.sin ((x - y) / 2) ^ 2 = Real.sin ((y - x) / 2) ^ 2 := by
    intro x y
    rw [show (x - y) / 2 = -((y - x) / 2) by ring, Real.sin_neg]
    ring
  rw [h (radiansOf lat2) (radiansOf lat1), h (radiansOf lon2) (radiansOf lon1)]
  ring

lemma haversineKm_self (lat lon : ℝ) : haversineKm lat lon lat lon = 0 := by
  unfold haversineKm
  rw [havA_self]
  simp [atan2_zero_one]

lemma haversineKm_symm (lat1 lon1 lat2 lon2 : ℝ) :
    haversineKm lat1 lon1 lat2 lon2 = haversineKm lat2 lon2 lat1 lon1 := by
  unfold haversineKm
  rw [havA_symm]

lemma calculate_distance_symm (a b : Location) :
    calculate_distance a b = calculate_distance b a := by
  unfold calculate_distance
  cases h1 : a.latitude <;> cases h2 : a.longitude <;>
    cases h3 : b.latitude <;> cases h4 : b.longitude <;> simp only []
  case some.some.some.some =>
    exact if_congr (by tauto) rfl (by rw [haversineKm_symm])

lemma calculate_distance_self (a : Location)
    (hlat : truthyCoord a.latitude) (hlon : truthyCoord a.longitude) :
    calculate_distance a a = 0 := by
  obtain ⟨x, hx, hx0⟩ := hlat
  obtain ⟨y, hy, hy0⟩ := hlon
  unfold calculate_distance
  rw [hx, hy]
  simp only []
  rw [if_neg (by tauto), haversineKm_self]
  exact EReal.coe_zero

lemma calculate_distance_top_iff (a b : Location) :
    calculate_distance a b = ⊤ ↔
      ¬ (truthyCoord a.latitude ∧ truthyCoord a.longitude ∧
         truthyCoord b.latitude ∧ truthyCoord b.longitude) := by
  unfold calculate_distance
  cases h1 : a.latitude <;> cases h2 : a.longitude <;>
    cases h3 : b.latitude <;> cases h4 : b.longitude <;>
    simp only [truthyCoord, h1, h2, h3, h4] <;>
    simp [EReal.coe_ne_top, imp_false]

/-! ### List helpers -/

lemma find?_map_update_eq {α : Type} (idOf : α → Nat) (l : List α)
    (oid : Nat) (x' : α) (hx' : idOf x' = oid) (o : α) (hol : o ∈ l)
    (hoid : idOf o = oid) :
    (l.map (fun y => if idOf y = oid then x' else y)).find?
      (fun y => decide (idOf y = oid)) = some x' := by
  induction l with
  | nil => cases hol
  | cons a t ih =>
    by_cases ha : idOf a = oid
    · simp [List.find?, ha, hx']
    · have hot : o ∈ t := by
        cases hol with
        | head => exact absurd hoid ha
        | tail _ h => exact h
      simp only [List.map_cons, List.find?, if_neg ha]
      rw [decide_eq_false ha]
      exact ih hot

/-- If the availability query of `accept_order` returned as many rows as
there are requested ids, then (given unique cylinder ids in the store) every
requested id resolves to an available cylinder. -/
lemma avail_filter_covers (db : DB) (ids : List Nat) (v : Nat)
    (hnd : (db.cylinders.map (fun c => c.id)).Nodup)
    (hlen : (db.cylinders.filter
      (fun c => decide (availableFor ids v c))).length = ids.length) :
    ∀ i ∈ ids, ∃ c ∈ db.cylinders, c.id = i ∧ availableFor ids v c := by
  classical
  have hm_sub : (db.cylinders.filter
      (fun c => decide (availableFor ids v c))).Sublist db.cylinders :=
    List.filter_sublist _
  have hmndup : ((db.cylinders.filter
      (fun c => decide (availableFor ids v c))).map (fun c => c.id)).Nodup :=
    (hm_sub.map (fun c => c.id)).nodup hnd
  have hmem : ∀ x ∈ (db.cylinders.filter
      (fun c => decide (availableFor ids v c))).map (fun c => c.id),
      x ∈ ids := by
    intro x hx
    obtain ⟨c, hc, rfl⟩ := List.mem_map.mp hx
    exact (of_decide_eq_true (List.mem_filter.mp hc).2).1
  have h1 : ((db.cylinders.filter
      (fun c => decide (availableFor ids v c))).map
        (fun c => c.id)).toFinset ⊆ ids.toFinset := by
    intro x hx
    exact List.mem_toFinset.mpr (hmem x (List.mem_toFinset.mp hx))
  have hcard1 : ((db.cylinders.filter
      (fun c => decide (availableFor ids v c))).map
        (fun c => c.id)).toFinset.card = ids.length := by
    rw [List.toFinset_card_of_nodup hmndup, List.length_map]
    exact hlen
  have hcard2 : ids.toFinset.card ≤ ids.length := ids.toFinset_card_le
  have heq : ((db.cylinders.filter
      (fun c => decide (availableFor ids v c))).map
        (fun c => c.id)).toFinset = ids.toFinset :=
    Finset.eq_of_subset_of_card_le h1 (by rw [hcard1]; exact hcard2)
  intro i hi
  have hi' : i ∈ ((db.cylinders.filter
      (fun c => decide (availableFor ids v c))).map
        (fun c => c.id)).toFinset := by
    rw [heq]; exact List.mem_toFinset.mpr hi
  obtain ⟨c, hc, hcid⟩ := List.mem_map.mp (List.mem_toFinset.mp hi')
  exact ⟨c, (List.mem_filter.mp hc).1, hcid,
    of_decide_eq_true (List.mem_filter.mp hc).2⟩

/-- Conversely, if some requested id has no available cylinder, the
availability query returns strictly fewer rows than requested ids. -/
lemma avail_filter_misses (db : DB) (ids : List Nat) (v : Nat)
    (hnd : (db.cylinders.map (fun c => c.id)).Nodup)
    (i : Nat) (hi : i ∈ ids)
    (hbad : ∀ c ∈ db.cylinders, c.id = i →
      ¬ (c.vendor_id = v ∧ c.status = CylinderStatus.filled ∧
         c.is_assigned = false)) :
    (db.cylinders.filter
      (fun c => decide (availableFor ids v c))).length ≠ ids.length := by
  intro hlen
  obtain ⟨c, hcdb, hcid, hav⟩ := avail_filter_covers db ids v hnd hlen i hi
  exact hbad c hcdb hcid ⟨hav.2.1, hav.2.2.1, hav.2.2.2⟩

/-- With unique ids, two store cylinders with the same id are equal. -/
lemma cylinder_id_inj (db : DB)
    (hnd : (db.cylinders.map (fun c => c.id)).Nodup) :
    ∀ c₁ ∈ db.cylinders, ∀ c₂ ∈ db.cylinders, c₁.id = c₂.id → c₁ = c₂ :=
  List.inj_on_of_nodup_map hnd

/-- `find?` by id is `isSome`-stable under mapping a function that preserves
every element's id. -/
lemma find?_isSome_map_id {l : List Cylinder} {g : Cylinder → Cylinder}
    (hg : ∀ x ∈ l, (g x).id = x.id) (j : Nat) :
    ((l.map g).find? (fun c => decide (c.id = j))).isSome =
      (l.find? (fun c => decide (c.id = j))).isSome := by
  induction l with
  | nil => rfl
  | cons a t ih =>
    simp only [List.map_cons, List.find?]
    rw [hg a (List.mem_cons_self a t)]
    cases hd : decide (a.id = j) with
    | true => rfl
    | false => exact ih (fun x hx => hg x (List.mem_cons_of_mem a hx))

/-- One `bulkStep` keeps every cylinder id in place, so resolution of any id
is unchanged. -/
lemma bulkStep_find_isSome (ns : CylinderStatus) (loc : Option Location)
    (notes : Option String) (uid : Nat) (oid : Option Nat)
    (acc : DB × List Cylinder) (cyl_id j : Nat) :
    (dbFindCylinder (CylinderService.bulkStep ns loc notes uid oid acc cyl_id).1
        j).isSome =
      (dbFindCylinder acc.1 j).isSome := by
  unfold CylinderService.bulkStep
  cases h : dbFindCylinder acc.1 cyl_id with
  | none => rfl
  | some cylinder =>
    have h' : acc.1.cylinders.find? (fun c => decide (c.id = cyl_id)) =
        some cylinder := h
    have hid : cylinder.id = cyl_id := by
      have hp := List.find?_some h'
      simpa using hp
    unfold dbFindCylinder
    exact find?_isSome_map_id
      (fun x _ => by
        by_cases hx : x.id = cyl_id <;>
          simp [hx, hid, CylinderService.bulkApplied]) j

/-- Everything the `update_status_bulk` fold guarantees, generalized over the
starting accumulator: collected ids are the resolving ids in order, collected
rows carry the new status, one log per resolving id, the flag/link invariant
is preserved (only `status` and `location` change), and orders are
untouched. -/
lemma bulk_fold_spec (ns : CylinderStatus) (loc : Option Location)
    (notes : Option String) (uid : Nat) (oid : Option Nat) :
    ∀ (ids : List Nat) (db : DB) (acc : List Cylinder),
    ((ids.foldl (CylinderService.bulkStep ns loc notes uid oid)
        (db, acc)).2.map (fun c => c.id) =
      acc.map (fun c => c.id) ++
        ids.filter (fun i => (dbFindCylinder db i).isSome)) ∧
    (∀ c' ∈ (ids.foldl (CylinderService.bulkStep ns loc notes uid oid)
        (db, acc)).2, c' ∈ acc ∨ c'.status = ns) ∧
    ((ids.foldl (CylinderService.bulkStep ns loc notes uid oid)
        (db, acc)).1.cylinder_logs.length =
      db.cylinder_logs.length +
        (ids.filter (fun i => (dbFindCylinder db i).isSome)).length) ∧
    (assignFlagInv db →
      assignFlagInv (ids.foldl (CylinderService.bulkStep ns loc notes uid oid)
        (db, acc)).1) ∧
    (ids.foldl (CylinderService.bulkStep ns loc notes uid oid)
        (db, acc)).1.orders = db.orders := by
  intro ids
  induction ids with
  | nil =>
    intro db acc
    exact ⟨by simp, fun c' hc' => Or.inl hc', by simp, fun h => h, rfl⟩
  | cons i rest ih =>
    intro db acc
    have hstab : ∀ j, (dbFindCylinder
        (CylinderService.bulkStep ns loc notes uid oid (db, acc) i).1 j).isSome =
        (dbFindCylinder db j).isSome :=
      fun j => bulkStep_find_isSome ns loc notes uid oid (db, acc) i j
    simp only [List.foldl_cons]
    cases h : dbFindCylinder db i with
    | none =>
      have hstep : CylinderService.bulkStep ns loc notes uid oid (db, acc) i =
          (db, acc) := by
        unfold CylinderService.bulkStep
        rw [h]
      rw [hstep]
      obtain ⟨ha, hb, hc, hd, he⟩ := ih db acc
      refine ⟨?_, hb, ?_, hd, he⟩
      · rw [ha, List.filter_cons_of_neg (by simp [h])]
      · rw [hc, List.filter_cons_of_neg (by simp [h])]
    | some cylinder =>
      have h' : db.cylinders.find? (fun c => decide (c.id = i)) =
          some cylinder := h
      have hmem : cylinder ∈ db.cylinders := List.mem_of_find?_eq_some h'
      have hid : cylinder.id = i := by
        have hp := List.find?_some h'
        simpa using hp
      have hstep : CylinderService.bulkStep ns loc notes uid oid (db, acc) i =
          ({ db with
              cylinders := db.cylinders.map
                (fun c => if c.id = i then
                  CylinderService.bulkApplied ns loc cylinder else c),
              cylinder_logs := db.cylinder_logs ++
                [CylinderService.bulkLog ns loc notes uid oid cylinder] },
            acc ++ [CylinderService.bulkApplied ns loc cylinder]) := by
        unfold CylinderService.bulkStep
        rw [h]
      obtain ⟨ha, hb, hc, hd, he⟩ := ih
        ({ db with
            cylinders := db.cylinders.map
              (fun c => if c.id = i then
                CylinderService.bulkApplied ns loc cylinder else c),
            cylinder_logs := db.cylinder_logs ++
              [CylinderService.bulkLog ns loc notes uid oid cylinder] })
        (acc ++ [CylinderService.bulkApplied ns loc cylinder])
      have hfilter : rest.filter (fun j => (dbFindCylinder
          ({ db with
              cylinders := db.cylinders.map
                (fun c => if c.id = i then
                  CylinderService.bulkApplied ns loc cylinder else c),
              cylinder_logs := db.cylinder_logs ++
                [CylinderService.bulkLog ns loc notes uid oid cylinder] } : DB)
            j).isSome) =
          rest.filter (fun j => (dbFindCylinder db j).isSome) := by
        apply List.filter_congr
        intro j _
        have := hstab j
        rw [hstep] at this
        rw [this]
      rw [hstep]
      refine ⟨?_, ?_, ?_, ?_, ?_⟩
      · rw [ha, hfilter, List.filter_cons_of_pos (by simp [h]), List.map_append]
        simp [CylinderService.bulkApplied, hid]
      · intro c' hc'
        cases hb c' hc' with
        | inl hin =>
          cases List.mem_append.mp hin with
          | inl h1 => exact Or.inl h1
          | inr h2 =>
            cases List.mem_singleton.mp h2
            exact Or.inr rfl
        | inr hst => exact Or.inr hst
      · rw [hc, hfilter, List.filter_cons_of_pos (by simp [h])]
        dsimp only
        simp only [List.length_append, List.length_cons, List.length_singleton,
          List.length_nil]
        omega
      · intro hinv
        apply hd
        intro c' hc'
        obtain ⟨x, hx, hgx⟩ := List.mem_map.mp hc'
        by_cases hxi : x.id = i
        · rw [if_pos hxi] at hgx
          rw [← hgx]
          exact hinv cylinder hmem
        · rw [if_neg hxi] at hgx
          rw [← hgx]
          exact hinv x hx
      · rw [he]

/-! ### Claim theorems -/

/-- Claim C10: for every cache state and store, the single-entity `get` of
both services returns exactly what a direct store lookup returns — even on a
cache hit the stored row is re-read, so the cached copy is never the value
returned and a `get` after a committed write never returns the pre-write
row. -/
theorem C10_get_is_direct_lookup :
    ∀ (ccache : CacheMap CachedCylinder) (ocache : CacheMap CachedOrder)
      (db : DB) (eid : Nat),
    (CylinderService.get ccache db eid).1 = specCylinderGet db eid ∧
    (OrderService.get ocache db eid).1 = specOrderGet db eid := by
  intro ccache ocache db eid
  constructor
  · unfold CylinderService.get specCylinderGet
    cases cacheGet ccache [("cylinder"), toString eid] with
    | some v => rfl
    | none =>
      cases h : dbFindCylinder db eid with
      | some c => simp [h]
      | none => simp [h]
  · unfold OrderService.get specOrderGet
    cases cacheGet ocache [("order"), toString eid] with
    | some v => rfl
    | none =>
      cases h : dbFindOrder db eid with
      | some o => simp [h]
      | none => simp [h]

/-- Claim C9: `update_status_bulk` never raises; it returns exactly the rows
for the ids that resolved, in order, each with the new status applied, and
non-resolving ids are silently skipped. -/
theorem C9_bulk_skips_unresolved :
    ∀ (db : DB) (ids : List Nat) (ns : CylinderStatus) (loc : Option Location)
      (notes : Option String) (uid : Nat) (oid : Option Nat),
    ((CylinderService.update_status_bulk db ids ns loc notes uid oid).2.map
        (fun c => c.id) =
      ids.filter (fun i => (dbFindCylinder db i).isSome)) ∧
    ∀ c' ∈ (CylinderService.update_status_bulk db ids ns loc notes uid oid).2,
      c'.status = ns := by
  intro db ids ns loc notes uid oid
  obtain ⟨ha, hb, -, -, -⟩ := bulk_fold_spec ns loc notes uid oid ids db []
  refine ⟨by simpa using ha, ?_⟩
  intro c' hc'
  cases hb c' hc' with
  | inl habs => cases habs
  | inr hst => exact hst

/-- Witness for C9 at a concrete store: cylinders 1 and 2 exist, id 3 does
not; the bulk update over `[1, 3, 2]` returns exactly the rows for 1 and 2. -/
theorem C9_bulk_skips_unresolved_witness :
    (CylinderService.update_status_bulk dbTwoCyl [1, 3, 2]
        CylinderStatus.empty none none 9 none).2.map (fun c => c.id) =
      [1, 2] := by
  rw [(C9_bulk_skips_unresolved dbTwoCyl [1, 3, 2]
    CylinderStatus.empty none none 9 none).1]
  rfl

/-- Counterexample to claim C8 as stated: in a store whose only cylinder is
already `filled` and with an empty log table, a bulk update to `filled`
(no status change) still appends a `status_changed` log row. -/
theorem C8_counterexample :
    (CylinderService.update_status_bulk dbOneCyl [1] CylinderStatus.filled
        none none 9 none).1.cylinder_logs.map (fun e => e.event_type) =
      [CylinderEventType.status_changed] ∧
    dbFindCylinder dbOneCyl 1 = some cylFilled ∧
    cylFilled.status = CylinderStatus.filled ∧
    dbOneCyl.cylinder_logs = [] :=
  ⟨rfl, rfl, rfl, rfl⟩

/-- Claim C8 (amended): the single `update` appends a `status_changed`
`CylinderLog` entry iff a status was passed and differs from the current
one, while `update_status_bulk` appends one `status_changed` entry for every
resolving id unconditionally — also when the status does not change. -/
theorem C8_amended_log_conditions :
    ∀ (db : DB) (cid : Nat) (u : CylinderUpdate) (uid : Nat) (c : Cylinder),
    dbFindCylinder db cid = some c →
    (∀ db' c', CylinderService.update db cid u uid = Except.ok (db', c') →
      ((∃ e, db'.cylinder_logs = db.cylinder_logs ++ [e] ∧
          e.event_type = CylinderEventType.status_changed) ↔
        (∃ s, u.status = some s ∧ s ≠ c.status))) ∧
    (∀ (ids : List Nat) (ns : CylinderStatus) (loc : Option Location)
        (notes : Option String) (oid : Option Nat),
      (CylinderService.update_status_bulk db ids ns loc notes uid
          oid).1.cylinder_logs.length =
        db.cylinder_logs.length +
          (ids.filter (fun i => (dbFindCylinder db i).isSome)).length) := by
  intro db cid u uid c hfind
  constructor
  · intro db' c' heq
    unfold CylinderService.update at heq
    rw [hfind] at heq
    cases hu : u.status with
    | none =>
      rw [hu] at heq
      simp only [Except.ok.injEq, Prod.mk.injEq] at heq
      obtain ⟨hdb, -⟩ := heq
      constructor
      · rintro ⟨e, hlogs, -⟩
        rw [← hdb] at hlogs
        simp at hlogs
      · rintro ⟨s, hs, -⟩
        exact Option.noConfusion hs
    | some s =>
      rw [hu] at heq
      dsimp only at heq
      by_cases hne : s ≠ c.status
      · rw [if_pos hne] at heq
        simp only [Except.ok.injEq, Prod.mk.injEq] at heq
        obtain ⟨hdb, -⟩ := heq
        constructor
        · intro _
          exact ⟨s, rfl, hne⟩
        · intro _
          exact ⟨_, by rw [← hdb], rfl⟩
      · rw [if_neg hne] at heq
        simp only [Except.ok.injEq, Prod.mk.injEq] at heq
        obtain ⟨hdb, -⟩ := heq
        push_neg at hne
        constructor
        · rintro ⟨e, hlogs, -⟩
          rw [← hdb] at hlogs
          simp at hlogs
        · rintro ⟨s', hs', hne'⟩
          cases hs'
          exact absurd hne hne'
  · intro ids ns loc notes oid
    obtain ⟨-, -, hc, -, -⟩ := bulk_fold_spec ns loc notes uid oid ids db []
    exact hc

/-- Witness for C8 (amended) at a concrete store: one bulk update over a
resolving id appends exactly one log row. -/
theorem C8_amended_log_conditions_witness :
    (CylinderService.update_status_bulk dbOneCyl [1] CylinderStatus.empty
        none none 9 none).1.cylinder_logs.length = 1 := by
  rw [(C8_amended_log_conditions dbOneCyl 1
    { status := some CylinderStatus.empty } 9 cylFilled rfl).2
    [1] CylinderStatus.empty none none none]
  rfl

/-- Claim C5 (code bug): `DeliveryTrackingService.update_delivery_status`
evaluates the guard list
`[OrderStatus.ACCEPTED, OrderStatus.IN_TRANSIT, OrderStatus.OUT_FOR_DELIVERY]`
before comparing, and `OrderStatus` has no member `OUT_FOR_DELIVERY`, so for
every order that exists — whatever its status — the call raises
`AttributeError` and never applies the update. -/
theorem C5_delivery_update_raises_attribute_error :
    ∀ (db : DB) (oid : Nat) (u : DeliveryUpdate) (uid : Nat)
      (di : Option DriverInfo) (order : Order),
    dbFindOrder db oid = some order →
    DeliveryTrackingService.update_delivery_status db oid u uid di =
      Except.error Err.attributeError := by
  intro db oid u uid di order h
  unfold DeliveryTrackingService.update_delivery_status
  rw [h]
  rfl

/-- Witness for C5 at a concrete store holding an accepted order. -/
theorem C5_delivery_update_raises_attribute_error_witness :
    DeliveryTrackingService.update_delivery_status dbAccepted 1 deliveryUpd 9
        none =
      Except.error Err.attributeError :=
  C5_delivery_update_raises_attribute_error dbAccepted 1 deliveryUpd 9 none
    orderAccepted rfl

/-- Counterexample to claim C6 as stated: the sentinel is not "lacks both
coordinates" — a point missing only its longitude already yields `+inf`, and
a point whose latitude is `0.0` (falsy in Python) does too, so even
`distance(a,a)` can be `+inf` for a point that has both coordinates. -/
theorem C6_counterexample :
    calculate_distance locHalf locFull = ⊤ ∧
    ¬ (locHalf.latitude = none ∧ locHalf.longitude = none) ∧
    ¬ (locFull.latitude = none ∧ locFull.longitude = none) ∧
    locZeroLat.latitude ≠ none ∧ locZeroLat.longitude ≠ none ∧
    calculate_distance locZeroLat locZeroLat = ⊤ := by
  refine ⟨rfl, by simp [locHalf], by simp [locFull], by simp [locZeroLat],
    by simp [locZeroLat], ?_⟩
  simp [calculate_distance, locZeroLat]

/-- Claim C6 (amended): `calculate_distance` is symmetric; it is `0` on a
pair of identical points whose latitude and longitude are both present and
nonzero; and it is `+inf` exactly when at least one of the four coordinate
values is missing or zero (Python truthiness of `all([...])`). -/
theorem C6_amended_distance_properties :
    ∀ a b : Location,
    calculate_distance a b = calculate_distance b a ∧
    (truthyCoord a.latitude → truthyCoord a.longitude →
      calculate_distance a a = 0) ∧
    (calculate_distance a b = ⊤ ↔
      ¬ (truthyCoord a.latitude ∧ truthyCoord a.longitude ∧
         truthyCoord b.latitude ∧ truthyCoord b.longitude)) :=
  fun a b =>
    ⟨calculate_distance_symm a b,
     fun h1 h2 => calculate_distance_self a h1 h2,
     calculate_distance_top_iff a b⟩

/-- Witness for C6 (amended) at concrete locations. -/
theorem C6_amended_distance_properties_witness :
    calculate_distance locFull locFull = 0 ∧
    calculate_distance locHalf locFull = calculate_distance locFull locHalf :=
  ⟨(C6_amended_distance_properties locFull locFull).2.1
      ⟨1, rfl, one_ne_zero⟩ ⟨1, rfl, one_ne_zero⟩,
   (C6_amended_distance_properties locHalf locFull).1⟩

/-- Claim C7: for a finite radius, `find_nearby_vendors` is sorted ascending
by distance, holds exactly the candidates whose distance is at most the
radius (so an infinite-distance candidate is excluded), and is stable: for
every distance value, the pairs at that distance appear exactly as in the
filtered input, in original candidate order. -/
theorem C7_rank_within_radius :
    ∀ (target : Location) (cands : List (Nat × Location)) (maxd : EReal),
    maxd ≠ ⊤ →
    ((find_nearby_vendors target cands maxd).Pairwise
        (fun x y => x.2 ≤ y.2)) ∧
    (∀ q, q ∈ find_nearby_vendors target cands maxd ↔
        q ∈ cands.filterMap (fun p =>
          if calculate_distance target p.2 ≤ maxd then
            some (p.1, calculate_distance target p.2) else none)) ∧
    (∀ q ∈ find_nearby_vendors target cands maxd, q.2 ≤ maxd ∧ q.2 ≠ ⊤) ∧
    (∀ i loc, (i, loc) ∈ cands → calculate_distance target loc ≤ maxd →
        (i, calculate_distance target loc) ∈
          find_nearby_vendors target cands maxd) ∧
    (∀ d : EReal, (find_nearby_vendors target cands maxd).filter
          (fun q => decide (q.2 = d)) =
        (cands.filterMap (fun p =>
          if calculate_distance target p.2 ≤ maxd then
            some (p.1, calculate_distance target p.2) else none)).filter
          (fun q => decide (q.2 = d))) := by
  intro target cands maxd hmax
  have hdef : find_nearby_vendors target cands maxd =
      (cands.filterMap (fun p =>
        if calculate_distance target p.2 ≤ maxd then
          some (p.1, calculate_distance target p.2) else none)).mergeSort
        (fun x y => decide (x.2 ≤ y.2)) := rfl
  have htrans : ∀ (a b c : Nat × EReal),
      (fun x y : Nat × EReal => decide (x.2 ≤ y.2)) a b →
      (fun x y : Nat × EReal => decide (x.2 ≤ y.2)) b c →
      (fun x y : Nat × EReal => decide (x.2 ≤ y.2)) a c := by
    intro a b c hab hbc
    simp only [decide_eq_true_eq] at *
    exact le_trans hab hbc
  have htotal : ∀ (a b : Nat × EReal),
      ((fun x y : Nat × EReal => decide (x.2 ≤ y.2)) a b ||
        (fun x y : Nat × EReal => decide (x.2 ≤ y.2)) b a) = true := by
    intro a b
    rcases le_total a.2 b.2 with h | h <;> simp [h]
  have hmemq : ∀ q, q ∈ cands.filterMap (fun p =>
      if calculate_distance target p.2 ≤ maxd then
        some (p.1, calculate_distance target p.2) else none) →
      q.2 ≤ maxd ∧ q.2 ≠ ⊤ := by
    intro q hq
    obtain ⟨p, -, hsome⟩ := List.mem_filterMap.mp hq
    by_cases hle : calculate_distance target p.2 ≤ maxd
    · rw [if_pos hle] at hsome
      cases hsome
      refine ⟨hle, ?_⟩
      intro htop
      have htop' : calculate_distance target p.2 = ⊤ := htop
      rw [htop'] at hle
      exact hmax (top_le_iff.mp hle)
    · rw [if_neg hle] at hsome
      cases hsome
  refine ⟨?_, ?_, ?_, ?_, ?_⟩
  · rw [hdef]
    exact (List.sorted_mergeSort htrans htotal _).imp
      (fun h => of_decide_eq_true h)
  · intro q
    rw [hdef]
    exact List.mem_mergeSort
  · intro q hq
    exact hmemq q ((List.mem_mergeSort).mp (hdef ▸ hq))
  · intro i loc hmem hle
    rw [hdef]
    exact List.mem_mergeSort.mpr
      (List.mem_filterMap.mpr ⟨(i, loc), hmem, by rw [if_pos hle]⟩)
  · intro d
    have hperm := List.mergeSort_perm (cands.filterMap (fun p =>
      if calculate_distance target p.2 ≤ maxd then
        some (p.1, calculate_distance target p.2) else none))
      (fun x y : Nat × EReal => decide (x.2 ≤ y.2))
    have hmemd : ∀ x ∈ (cands.filterMap (fun p =>
        if calculate_distance target p.2 ≤ maxd then
          some (p.1, calculate_distance target p.2) else none)).filter
          (fun q => decide (q.2 = d)), x.2 = d :=
      fun x hx => of_decide_eq_true (List.mem_filter.mp hx).2
    have hpair : ((cands.filterMap (fun p =>
        if calculate_distance target p.2 ≤ maxd then
          some (p.1, calculate_distance target p.2) else none)).filter
          (fun q => decide (q.2 = d))).Pairwise
        (fun a b : Nat × EReal => decide (a.2 ≤ b.2) = true) := by
      apply List.pairwise_of_forall_mem_list
      intro a ha b hb
      rw [hmemd a ha, hmemd b hb]
      simp
    have hsub : ((cands.filterMap (fun p =>
        if calculate_distance target p.2 ≤ maxd then
          some (p.1, calculate_distance target p.2) else none)).filter
          (fun q => decide (q.2 = d))).Sublist
        (cands.filterMap (fun p =>
          if calculate_distance target p.2 ≤ maxd then
            some (p.1, calculate_distance target p.2) else none)) :=
      List.filter_sublist _
    have hs := List.sublist_mergeSort htrans htotal hpair hsub
    have hfilter_self : ((cands.filterMap (fun p =>
        if calculate_distance target p.2 ≤ maxd then
          some (p.1, calculate_distance target p.2) else none)).filter
          (fun q => decide (q.2 = d))).filter (fun q => decide (q.2 = d)) =
        (cands.filterMap (fun p =>
          if calculate_distance target p.2 ≤ maxd then
            some (p.1, calculate_distance target p.2) else none)).filter
          (fun q => decide (q.2 = d)) :=
      List.filter_eq_self.mpr (fun a ha => (List.mem_filter.mp ha).2)
    have hsf := hs.filter (fun q => decide (q.2 = d))
    rw [hfilter_self] at hsf
    have hlen := (hperm.filter (fun q => decide (q.2 = d))).length_eq
    rw [hdef]
    exact (hsf.eq_of_length hlen.symm).symm

/-- Witness for C7: with target `locFull`, one candidate at the target and
one candidate with a missing longitude, radius 5 km, the zero-distance
candidate is ranked. -/
theorem C7_rank_within_radius_witness :
    (7, calculate_distance locFull locFull) ∈
      find_nearby_vendors locFull [(7, locFull), (9, locHalf)]
        ((5 : ℝ) : EReal) := by
  refine (C7_rank_within_radius locFull [(7, locFull), (9, locHalf)]
    ((5 : ℝ) : EReal) (EReal.coe_ne_top 5)).2.2.2.1 7 locFull (by simp) ?_
  rw [calculate_distance_self locFull ⟨1, rfl, one_ne_zero⟩
    ⟨1, rfl, one_ne_zero⟩]
  rw [show (0 : EReal) = ((0 : ℝ) : EReal) by simp]
  exact EReal.coe_le_coe_iff.mpr (by norm_num)

/-- Claim C1: on every successful `accept_order`, every requested id resolved
to a cylinder owned by the vendor, `filled` and unassigned; afterwards each
of those cylinders is assigned and linked to the order, the order is
`accepted` with vendor and ETA set, and exactly one `vendor_assigned`
`OrderLog` row was appended; and when any requested id fails the availability
condition the call fails with the 400 error and produces no new state
(all-or-nothing, since the raise precedes every mutation). -/
theorem C1_accept_order_spec :
    ∀ (db : DB) (oid v eta : Nat) (ids : List Nat),
    (db.cylinders.map (fun c => c.id)).Nodup →
    (∀ (db' : DB) (o' : Order),
      OrderService.accept_order db oid v eta ids = Except.ok (db', o') →
      (∀ i ∈ ids, ∃ c ∈ db.cylinders, c.id = i ∧ c.vendor_id = v ∧
          c.status = CylinderStatus.filled ∧ c.is_assigned = false) ∧
      (∀ c' ∈ db'.cylinders, c'.id ∈ ids →
          c'.is_assigned = true ∧ c'.current_order_id = some oid) ∧
      (o'.status = OrderStatus.accepted ∧ o'.vendor_id = some v ∧
          o'.expected_delivery = some eta ∧ dbFindOrder db' oid = some o') ∧
      db'.order_logs = db.order_logs ++
        [{ order_id := oid, event_type := OrderEventType.vendor_assigned,
           old_status := some OrderStatus.pending,
           new_status := some OrderStatus.accepted,
           details := some (OrderLogDetails.acceptance ids eta),
           notes := none, created_by := v }]) ∧
    (∀ order : Order, dbFindOrder db oid = some order →
      order.status = OrderStatus.pending →
      ∀ i ∈ ids, (∀ c ∈ db.cylinders, c.id = i →
          ¬ (c.vendor_id = v ∧ c.status = CylinderStatus.filled ∧
             c.is_assigned = false)) →
      OrderService.accept_order db oid v eta ids =
        Except.error (Err.http 400 ("Some cylinders are not available"))) := by
  intro db oid v eta ids hnd
  constructor
  · intro db' o' heq
    unfold OrderService.accept_order at heq
    cases hfind : dbFindOrder db oid with
    | none =>
      rw [hfind] at heq
      exact Except.noConfusion heq
    | some order =>
      rw [hfind] at heq
      dsimp only at heq
      have hfind' : db.orders.find? (fun o => decide (o.id = oid)) =
          some order := hfind
      have horder_mem : order ∈ db.orders := List.mem_of_find?_eq_some hfind'
      have horderid : order.id = oid := by
        have hp := List.find?_some hfind'
        simpa using hp
      by_cases hst : order.status ≠ OrderStatus.pending
      · rw [if_pos hst] at heq
        exact Except.noConfusion heq
      · rw [if_neg hst] at heq
        by_cases hlen : (db.cylinders.filter
            (fun c => decide (availableFor ids v c))).length ≠ ids.length
        · rw [if_pos hlen] at heq
          exact Except.noConfusion heq
        · rw [if_neg hlen] at heq
          push_neg at hlen
          simp only [Except.ok.injEq, Prod.mk.injEq] at heq
          obtain ⟨hdb, ho⟩ := heq
          have hcov := avail_filter_covers db ids v hnd hlen
          refine ⟨?_, ?_, ?_, ?_⟩
          · intro i hi
            obtain ⟨c, hcdb, hcid, hav⟩ := hcov i hi
            exact ⟨c, hcdb, hcid, hav.2.1, hav.2.2.1, hav.2.2.2⟩
          · intro c' hc' hc'id
            rw [← hdb] at hc'
            dsimp only at hc'
            obtain ⟨x, hx, hgx⟩ := List.mem_map.mp hc'
            by_cases hxav : availableFor ids v x
            · rw [if_pos hxav] at hgx
              rw [← hgx]
              exact ⟨rfl, rfl⟩
            · rw [if_neg hxav] at hgx
              rw [← hgx] at hc'id
              obtain ⟨c₀, hc₀db, hc₀id, hc₀av⟩ := hcov x.id hc'id
              have : c₀ = x := cylinder_id_inj db hnd c₀ hc₀db x hx hc₀id
              rw [this] at hc₀av
              exact absurd hc₀av hxav
          · refine ⟨?_, ?_, ?_, ?_⟩
            · rw [← ho]
            · rw [← ho]
            · rw [← ho]
            · rw [← hdb, ← ho]
              refine find?_map_update_eq (fun o => o.id) db.orders oid _ ?_
                order horder_mem horderid
              exact horderid
          · rw [← hdb]
            dsimp only
            rw [horderid]
  · intro order hfind hpend i hi hbad
    unfold OrderService.accept_order
    rw [hfind]
    dsimp only
    rw [if_neg (by simp [hpend])]
    rw [if_pos (avail_filter_misses db ids v hnd i hi hbad)]

/-- Witness for C1 at a concrete store: accepting the pending order with a
nonexistent cylinder id fails with the availability error. -/
theorem C1_accept_order_spec_witness :
    OrderService.accept_order dbPending 1 7 100 [2] =
      Except.error (Err.http 400 ("Some cylinders are not available")) := by
  refine (C1_accept_order_spec dbPending 1 7 100 [2] (by decide)).2
    orderPending rfl rfl 2 (by simp) ?_
  intro c hc hcid
  have : c = cylFilled := List.mem_singleton.mp hc
  rw [this] at hcid
  exact absurd hcid (by decide)

/-- Claim C2: `accept_order` on an order that exists but is not `pending`
fails with the conflict error, and whenever some requested cylinder id has
no available cylinder the whole acceptance fails with the availability
error; both raises happen before any mutation, so the store, the logs and
every cylinder are unchanged (the error carries no new state). -/
theorem C2_accept_error_atomicity :
    ∀ (db : DB) (oid v eta : Nat) (ids : List Nat) (order : Order),
    (db.cylinders.map (fun c => c.id)).Nodup →
    dbFindOrder db oid = some order →
    (order.status ≠ OrderStatus.pending →
      OrderService.accept_order db oid v eta ids =
        Except.error (Err.http 400 ("Order cannot be accepted"))) ∧
    (order.status = OrderStatus.pending →
      ∀ i ∈ ids, (∀ c ∈ db.cylinders, c.id = i →
          ¬ (c.vendor_id = v ∧ c.status = CylinderStatus.filled ∧
             c.is_assigned = false)) →
      OrderService.accept_order db oid v eta ids =
        Except.error (Err.http 400 ("Some cylinders are not available"))) := by
  intro db oid v eta ids order hnd hfind
  constructor
  · intro hne
    unfold OrderService.accept_order
    rw [hfind]
    dsimp only
    rw [if_pos hne]
  · intro hpend i hi hbad
    unfold OrderService.accept_order
    rw [hfind]
    dsimp only
    rw [if_neg (by simp [hpend])]
    rw [if_pos (avail_filter_misses db ids v hnd i hi hbad)]

/-- Witness for C2 at a concrete store: accepting an already-accepted order
fails with the conflict error. -/
theorem C2_accept_error_atomicity_witness :
    OrderService.accept_order dbAccepted 1 7 100 [1] =
      Except.error (Err.http 400 ("Order cannot be accepted")) :=
  (C2_accept_error_atomicity dbAccepted 1 7 100 [1] orderAccepted
    (by decide) rfl).1 (by decide)

/-- Counterexample to claim C3 as stated: `cancel_order` only unassigns the
cylinders in the order's `order_cylinders` association set.  In a store where
cylinder 1 carries `current_order_id = 1` but order 1's set is empty, the
cancellation succeeds and the cylinder keeps its link and its flag. -/
theorem C3_counterexample :
    (OrderService.cancel_order dbDisagree 1 9 ("changed mind")).toOption.map
        (fun p => p.2.status) = some OrderStatus.cancelled ∧
    dbFindCylinder dbDisagree 1 = some cylLinked ∧
    cylLinked.current_order_id = some 1 ∧
    cylLinked.is_assigned = true ∧
    (OrderService.cancel_order dbDisagree 1 9 ("changed mind")).toOption.map
        (fun p => p.1.cylinders.map (fun c =>
          (c.is_assigned, c.current_order_id))) =
      some [(true, some 1)] :=
  ⟨rfl, rfl, rfl, rfl, rfl⟩

/-- Claim C3 (amended): `cancel_order` fails with the invalid-transition
error exactly when the order's status is `in_transit`, `delivered` or
`cancelled`; on success it sets `cancelled`, appends exactly one `cancelled`
log row whose notes equal the reason, and — provided every cylinder link into
the order is mirrored in the order's association set, which holds on every
state the Order Engine itself produces — every cylinder with
`current_order_id = order_id` before the call is unassigned and unlinked
afterwards. -/
theorem C3_cancel_spec :
    ∀ (db : DB) (oid uid : Nat) (reason : String) (order : Order),
    (db.cylinders.map (fun c => c.id)).Nodup →
    dbFindOrder db oid = some order →
    (∀ c ∈ db.cylinders, c.current_order_id = some oid →
      c.id ∈ order.cylinders) →
    ((order.status = OrderStatus.in_transit ∨
        order.status = OrderStatus.delivered ∨
        order.status = OrderStatus.cancelled) →
      OrderService.cancel_order db oid uid reason =
        Except.error (Err.http 400 ("Order cannot be cancelled"))) ∧
    ((order.status = OrderStatus.pending ∨
        order.status = OrderStatus.accepted) →
      (OrderService.cancel_order db oid uid reason).isOk = true ∧
      ∀ db' o', OrderService.cancel_order db oid uid reason =
          Except.ok (db', o') →
        o'.status = OrderStatus.cancelled ∧
        db'.order_logs = db.order_logs ++
          [{ order_id := oid, event_type := OrderEventType.cancelled,
             old_status := some order.status,
             new_status := some OrderStatus.cancelled,
             details := none, notes := some reason, created_by := uid }] ∧
        ∀ c ∈ db.cylinders, c.current_order_id = some oid →
          ∀ c' ∈ db'.cylinders, c'.id = c.id →
            c'.is_assigned = false ∧ c'.current_order_id = none) := by
  intro db oid uid reason order hnd hfind hagree
  have hfind' : db.orders.find? (fun o => decide (o.id = oid)) = some order :=
    hfind
  have horderid : order.id = oid := by
    have hp := List.find?_some hfind'
    simpa using hp
  constructor
  · intro hbad
    unfold OrderService.cancel_order
    rw [hfind]
    dsimp only
    rw [if_pos (by rcases hbad with h | h | h <;> rw [h] <;> exact (by decide))]
  · intro hgood
    have hcond : ¬ (order.status ≠ OrderStatus.pending ∧
        order.status ≠ OrderStatus.accepted) := by
      rcases hgood with h | h <;> simp [h]
    constructor
    · unfold OrderService.cancel_order
      rw [hfind]
      dsimp only
      rw [if_neg hcond]
      rfl
    · intro db' o' heq
      unfold OrderService.cancel_order at heq
      rw [hfind] at heq
      dsimp only at heq
      rw [if_neg hcond] at heq
      simp only [Except.ok.injEq, Prod.mk.injEq] at heq
      obtain ⟨hdb, ho⟩ := heq
      refine ⟨by rw [← ho], ?_, ?_⟩
      · rw [← hdb]
        dsimp only
        rw [horderid]
      · intro c hc hlink c' hc' hcid
        rw [← hdb] at hc'
        dsimp only at hc'
        obtain ⟨x, hx, hgx⟩ := List.mem_map.mp hc'
        by_cases hmemx : x.id ∈ order.cylinders
        · rw [if_pos hmemx] at hgx
          rw [← hgx]
          exact ⟨rfl, rfl⟩
        · rw [if_neg hmemx] at hgx
          rw [← hgx] at hcid
          have hxc : x = c := cylinder_id_inj db hnd x hx c hc hcid
          rw [hxc] at hmemx
          exact absurd (hagree c hc hlink) hmemx

/-- Witness for C3 (amended) at a concrete agreeing store: cancelling the
accepted order succeeds. -/
theorem C3_cancel_spec_witness :
    (OrderService.cancel_order dbAgree 1 9 ("no longer needed")).isOk =
      true :=
  ((C3_cancel_spec dbAgree 1 9 ("no longer needed") orderAcceptedWith1
      (by decide) rfl
      (by
        intro c hc hlink
        have h := List.mem_singleton.mp hc
        subst h
        decide)).2 (Or.inr rfl)).1

/-- Counterexample to claim C4 as stated: `CylinderService.update` applies a
payload that sets `is_assigned` without a link, breaking the flag/link
invariant; and `cancel_order` never deletes the `order_cylinders` rows, so
after a successful cancellation the order-side set still holds cylinder 1
while the cylinder-side link is `none`. -/
theorem C4_counterexample :
    ((CylinderService.update dbOneCyl 1 updAssignOnly 9).toOption.map
        (fun p => p.1.cylinders.map (fun c =>
          (c.is_assigned, c.current_order_id))) =
      some [(true, none)]) ∧
    ((OrderService.cancel_order dbAgree 1 9 ("r")).toOption.map
        (fun p => (p.1.orders.map (fun o => o.cylinders),
          p.1.cylinders.map (fun c => c.current_order_id))) =
      some ([[1]], [none])) :=
  ⟨rfl, rfl⟩

/-- Claim C4 (amended): every exposed mutating operation preserves the
flag/link invariant `is_assigned = true ↔ current_order_id ≠ none`, with one
exception: `CylinderService.update` preserves it only when the payload
leaves `is_assigned` and `current_order_id` unset (the payload may set them
arbitrarily, so an unrestricted update can break it — see the
counterexample, which also shows `cancel_order` leaving the order-side
association set out of sync with the cylinder-side link). -/
theorem C4_amended_invariant_preservation :
    ∀ db : DB, assignFlagInv db →
    (∀ (cin : CylinderCreate) (vid nid : Nat) (db' : DB) (c : Cylinder),
      CylinderService.create db cin vid nid = Except.ok (db', c) →
      assignFlagInv db') ∧
    (∀ (cid : Nat) (u : CylinderUpdate) (uid : Nat) (db' : DB)
        (c' : Cylinder),
      u.is_assigned = none → u.current_order_id = none →
      CylinderService.update db cid u uid = Except.ok (db', c') →
      assignFlagInv db') ∧
    (∀ (ids : List Nat) (ns : CylinderStatus) (loc : Option Location)
        (notes : Option String) (uid : Nat) (oid : Option Nat),
      assignFlagInv
        (CylinderService.update_status_bulk db ids ns loc notes uid oid).1) ∧
    (∀ cid uid : Nat, assignFlagInv (CylinderService.delete db cid uid).1) ∧
    (∀ (oin : OrderCreate) (hid nid : Nat),
      assignFlagInv (OrderService.create db oin hid nid).1) ∧
    (∀ (oid v eta : Nat) (ids : List Nat) (db' : DB) (o' : Order),
      OrderService.accept_order db oid v eta ids = Except.ok (db', o') →
      assignFlagInv db') ∧
    (∀ (oid : Nat) (u : OrderDeliveryUpdate) (uid : Nat) (db' : DB)
        (o' : Order),
      OrderService.update_delivery_status db oid u uid = Except.ok (db', o') →
      assignFlagInv db') ∧
    (∀ (oid uid : Nat) (reason : String) (db' : DB) (o' : Order),
      OrderService.cancel_order db oid uid reason = Except.ok (db', o') →
      assignFlagInv db') := by
  intro db hinv
  refine ⟨?_, ?_, ?_, ?_, ?_, ?_, ?_, ?_⟩
  · intro cin vid nid db' c heq
    unfold CylinderService.create at heq
    cases hser : db.cylinders.find?
        (fun c => decide (c.serial_number = cin.serial_number)) with
    | some c₀ =>
      rw [hser] at heq
      exact Except.noConfusion heq
    | none =>
      rw [hser] at heq
      simp only [Except.ok.injEq, Prod.mk.injEq] at heq
      obtain ⟨hdb, -⟩ := heq
      intro y hy
      rw [← hdb] at hy
      dsimp only at hy
      cases List.mem_append.mp hy with
      | inl h1 => exact hinv y h1
      | inr h2 =>
        cases List.mem_singleton.mp h2
        simp
  · intro cid u uid db' c' hassign hlink heq
    unfold CylinderService.update at heq
    cases hfind : dbFindCylinder db cid with
    | none =>
      rw [hfind] at heq
      exact Except.noConfusion heq
    | some c =>
      rw [hfind] at heq
      have hmem : c ∈ db.cylinders := List.mem_of_find?_eq_some hfind
      dsimp only at heq
      simp only [Except.ok.injEq, Prod.mk.injEq] at heq
      obtain ⟨hdb, -⟩ := heq
      intro y hy
      rw [← hdb] at hy
      dsimp only at hy
      obtain ⟨x, hx, hgx⟩ := List.mem_map.mp hy
      by_cases hxi : x.id = cid
      · rw [if_pos hxi] at hgx
        rw [← hgx]
        unfold CylinderService.applyUpdate
        rw [hassign, hlink]
        exact hinv c hmem
      · rw [if_neg hxi] at hgx
        rw [← hgx]
        exact hinv x hx
  · intro ids ns loc notes uid oid
    obtain ⟨-, -, -, hd, -⟩ := bulk_fold_spec ns loc notes uid oid ids db []
    exact hd hinv
  · intro cid uid
    unfold CylinderService.delete
    cases hfind : dbFindCylinder db cid with
    | none => exact hinv
    | some c =>
      intro y hy
      dsimp only at hy
      exact hinv y (List.mem_of_mem_filter hy)
  · intro oin hid nid
    intro y hy
    exact hinv y hy
  · intro oid v eta ids db' o' heq
    unfold OrderService.accept_order at heq
    cases hfind : dbFindOrder db oid with
    | none =>
      rw [hfind] at heq
      exact Except.noConfusion heq
    | some order =>
      rw [hfind] at heq
      dsimp only at heq
      by_cases hst : order.status ≠ OrderStatus.pending
      · rw [if_pos hst] at heq
        exact Except.noConfusion heq
      · rw [if_neg hst] at heq
        by_cases hlen : (db.cylinders.filter
            (fun c => decide (availableFor ids v c))).length ≠ ids.length
        · rw [if_pos hlen] at heq
          exact Except.noConfusion heq
        · rw [if_neg hlen] at heq
          simp only [Except.ok.injEq, Prod.mk.injEq] at heq
          obtain ⟨hdb, -⟩ := heq
          intro y hy
          rw [← hdb] at hy
          dsimp only at hy
          obtain ⟨x, hx, hgx⟩ := List.mem_map.mp hy
          by_cases hxav : availableFor ids v x
          · rw [if_pos hxav] at hgx
            rw [← hgx]
            simp
          · rw [if_neg hxav] at hgx
            rw [← hgx]
            exact hinv x hx
  · intro oid u uid db' o' heq
    unfold OrderService.update_delivery_status at heq
    cases hfind : dbFindOrder db oid with
    | none =>
      rw [hfind] at heq
      exact Except.noConfusion heq
    | some order =>
      rw [hfind] at heq
      dsimp only at heq
      simp only [Except.ok.injEq, Prod.mk.injEq] at heq
      obtain ⟨hdb, -⟩ := heq
      intro y hy
      rw [← hdb] at hy
      exact hinv y hy
  · intro oid uid reason db' o' heq
    unfold OrderService.cancel_order at heq
    cases hfind : dbFindOrder db oid with
    | none =>
      rw [hfind] at heq
      exact Except.noConfusion heq
    | some order =>
      rw [hfind] at heq
      dsimp only at heq
      by_cases hst : order.status ≠ OrderStatus.pending ∧
          order.status ≠ OrderStatus.accepted
      · rw [if_pos hst] at heq
        exact Except.noConfusion heq
      · rw [if_neg hst] at heq
        simp only [Except.ok.injEq, Prod.mk.injEq] at heq
        obtain ⟨hdb, -⟩ := heq
        intro y hy
        rw [← hdb] at hy
        dsimp only at hy
        obtain ⟨x, hx, hgx⟩ := List.mem_map.mp hy
        by_cases hxm : x.id ∈ order.cylinders
        · rw [if_pos hxm] at hgx
          rw [← hgx]
          simp
        · rw [if_neg hxm] at hgx
          rw [← hgx]
          exact hinv x hx

/-- Witness for C4 (amended) at a concrete invariant-satisfying store: a
bulk status update preserves the flag/link invariant. -/
theorem C4_amended_invariant_preservation_witness :
    assignFlagInv dbOneCyl ∧
    assignFlagInv (CylinderService.update_status_bulk dbOneCyl [1]
      CylinderStatus.empty none none 9 none).1 :=
  ⟨by decide,
   (C4_amended_invariant_preservation dbOneCyl (by decide)).2.2.1
     [1] CylinderStatus.empty none none 9 none⟩
